import Mathlib

/-!
Shallow embedding of the incident-tracking backend
(`IncidentsService` in `src/unnamed/part_001`, entity in
`src/backend/src/incidents/entities/incident.entity.ts`),
with theorems settling the specification claims about it.

Timestamps are modelled as integer milliseconds since the Unix epoch,
the value JavaScript `Date.prototype.getTime` returns; only differences
of timestamps enter the duration logic, so this is faithful to the
source's `new Date(...).getTime()` arithmetic.  The persistent store
(a relational table accessed through a TypeORM repository) is modelled
as a list of rows.
-/

namespace IncidentSystem

/-- The `Incident` entity
(`src/backend/src/incidents/entities/incident.entity.ts`): columns
`id` (generated primary key), `reportedBy`, `assignedTo`, `dateTime`,
`description`, `attachment` (nullable), `status` (default `'Open'`),
`closedOn` (nullable datetime), `totalTime` (nullable string).  The
auto-generated `createdAt` column is omitted; no operation modelled
here reads or writes it. -/
structure Incident where
  id : Nat
  reportedBy : String
  assignedTo : String
  dateTime : Int
  description : String
  attachment : Option String
  status : String
  closedOn : Option Int
  totalTime : Option String
deriving Repr, DecidableEq

/-- Modelled from the spec: `CreateIncidentDto`
(`src/backend/src/incidents/dto/create-incident.dto.ts` is not among
the sources).  Spec section 6 lists the creation fields `reportedBy`,
`assignedTo`, `dateTime` (ISO datetime, parsed by the service with
`new Date(...)`, modelled here as the parsed timestamp), `description`,
and an optional `attachment` reference. -/
structure CreateIncidentDto where
  reportedBy : String
  assignedTo : String
  dateTime : Int
  description : String
  attachment : Option String
deriving Repr, DecidableEq

/-- Modelled from the spec: `UpdateIncidentDto`
(`src/backend/src/incidents/dto/update-incident.dto.ts` is not among
the sources).  Spec section 6: a PATCH body with optional `status` and
optional `closedOn`; these are exactly the two fields
`IncidentsService.update` reads.  `none` models an absent
(`undefined`) field; `some ""` for `status` models a supplied empty
string, which is falsy in JavaScript.  `closedOn` is modelled as the
parsed timestamp of the supplied value. -/
structure UpdateIncidentDto where
  status : Option String
  closedOn : Option Int
deriving Repr, DecidableEq

/-- The persisted table of incidents. -/
abbrev Store := List Incident

/-- The error a service operation can raise: `NotFoundException` with
the offending id. -/
inductive ServiceError where
  | notFound (id : Nat)
deriving Repr, DecidableEq

/-- The id the store assigns to a newly inserted row
(`@PrimaryGeneratedColumn()`): strictly larger than every id already
present, modelled as the maximum present id plus one. -/
def nextId (s : Store) : Nat := (s.map Incident.id).foldr max 0 + 1

/-- `repository.save` of a row whose id is already present: the stored
row with that id is replaced. -/
def saveExisting (r : Incident) (s : Store) : Store :=
  s.map (fun x => if x.id = r.id then r else x)

/-- `IncidentsService.create` (`src/unnamed/part_001` lines 15-21):
builds the entity from the dto (spreading its fields, with `dateTime`
parsed from the supplied value) and saves it; the unsupplied columns
take the entity defaults, `status = 'Open'` and null `closedOn`,
`totalTime`, and the store assigns a fresh id.  The operation has no
error path. -/
def create (dto : CreateIncidentDto) (s : Store) :
    Except ServiceError Incident × Store :=
  let inc : Incident :=
    { id := nextId s
      reportedBy := dto.reportedBy
      assignedTo := dto.assignedTo
      dateTime := dto.dateTime
      description := dto.description
      attachment := dto.attachment
      status := "Open"
      closedOn := none
      totalTime := none }
  (Except.ok inc, s ++ [inc])

/-- `IncidentsService.findAll` (lines 23-25): every row, ordered by id
descending (`order: { id: 'DESC' }`). -/
def findAll (s : Store) : List Incident :=
  s.mergeSort (fun a b => decide (b.id ≤ a.id))

/-- The first `if` of `IncidentsService.update` (lines 36-38):
`if (updateIncidentDto.status) incident.status = updateIncidentDto.status`.
An absent status and the (falsy) empty string leave the row unchanged. -/
def applyStatus (dto : UpdateIncidentDto) (inc : Incident) : Incident :=
  match dto.status with
  | none => inc
  | some st => if st = "" then inc else { inc with status := st }

/-- The second `if` of `IncidentsService.update` (lines 41-50): when a
`closedOn` value is supplied, `diffMs = closedOn - incident.dateTime`,
`diffHours = Math.floor(diffMs / (1000*60*60))`,
`diffDays = Math.floor(diffHours / 24)`, and
`totalTime = diffDays > 0 ? diffDays + " days" : diffHours + " hours"`,
with `closedOn` stored as supplied.  `Math.floor` of a real quotient of
integers is floor division, `Int.fdiv`. -/
def applyClosedOn (dto : UpdateIncidentDto) (inc : Incident) : Incident :=
  match dto.closedOn with
  | none => inc
  | some endMs =>
    let diffMs := endMs - inc.dateTime
    let diffHours := Int.fdiv diffMs (1000 * 60 * 60)
    let diffDays := Int.fdiv diffHours 24
    { inc with
      totalTime := some (if 0 < diffDays then toString diffDays ++ " days"
                         else toString diffHours ++ " hours")
      closedOn := some endMs }

/-- `IncidentsService.update` (lines 27-54): look the row up by id,
raise `NotFound` when absent, otherwise apply the status update and the
closing-time computation and save the row. -/
def update (id : Nat) (dto : UpdateIncidentDto) (s : Store) :
    Except ServiceError Incident × Store :=
  match s.find? (fun inc => inc.id = id) with
  | none => (Except.error (ServiceError.notFound id), s)
  | some incident =>
    let updated := applyClosedOn dto (applyStatus dto incident)
    (Except.ok updated, saveExisting updated s)

/-- `IncidentsService.remove` (lines 56-65): `repository.delete(id)`
removes the rows with that id and reports how many rows were affected;
the service raises `NotFound` when that count is zero. -/
def remove (id : Nat) (s : Store) : Except ServiceError Nat × Store :=
  let remaining := s.filter (fun inc => inc.id ≠ id)
  let affected := s.length - remaining.length
  if affected = 0 then (Except.error (ServiceError.notFound id), remaining)
  else (Except.ok affected, remaining)

/-- The CSV header names, in source order (line 69). -/
def csvHeaders : List String :=
  ["ID", "Reported By", "Assigned To", "Date & Time", "Description",
   "Status", "Closed On", "Total Time"]

/-- The header row: the names joined by commas with no quoting
(line 83, `headers.join(',')`). -/
def csvHeaderLine : String := String.intercalate "," csvHeaders

/-- One data cell (line 84): the rendered value wrapped in one leading
and one trailing double quote, with no escaping of the value. -/
def csvCell (v : String) : String := "\"" ++ v ++ "\""

/-- The 8 rendered field values of one incident, in source order
(lines 71-80): id, reportedBy, assignedTo, the formatted `dateTime`,
description, status, the formatted `closedOn` or the empty string when
null, and `totalTime` or the empty string when null.  `fmt` stands for
JavaScript `Date.prototype.toLocaleString`, a locale- and
environment-dependent rendering of a timestamp. -/
def incidentRow (fmt : Int → String) (inc : Incident) : List String :=
  [toString inc.id, inc.reportedBy, inc.assignedTo, fmt inc.dateTime,
   inc.description, inc.status,
   (match inc.closedOn with | some t => fmt t | none => ""),
   (match inc.totalTime with | some tt => tt | none => "")]

/-- One data row (line 84): each cell quoted, joined by commas. -/
def csvRowLine (fmt : Int → String) (inc : Incident) : String :=
  String.intercalate "," ((incidentRow fmt inc).map csvCell)

/-- `IncidentsService.exportToCSV` (lines 67-88): the header line
followed by one data row per incident of `findAll`, joined by
newlines. -/
def exportToCSV (fmt : Int → String) (s : Store) : String :=
  String.intercalate "\n" (csvHeaderLine :: (findAll s).map (csvRowLine fmt))

/-- The closure-relevant view of a stored row: its id together with the
`closedOn` and `totalTime` columns. -/
def closureView (inc : Incident) : Nat × Option Int × Option String :=
  (inc.id, inc.closedOn, inc.totalTime)

/-- 2024-01-01T00:00:00 UTC in epoch milliseconds. -/
def exDateTime : Int := 1704067200000

/-- A concrete open incident used to instantiate the theorems. -/
def exInc : Incident :=
  { id := 1, reportedBy := "Alice", assignedTo := "Bob",
    dateTime := exDateTime, description := "server down",
    attachment := none, status := "Open", closedOn := none,
    totalTime := none }

/-- A concrete valid creation request. -/
def exDto : CreateIncidentDto :=
  { reportedBy := "Alice", assignedTo := "Bob", dateTime := exDateTime,
    description := "server down", attachment := none }

/-- A concrete incident whose description embeds a double quote. -/
def quoteInc : Incident :=
  { id := 7, reportedBy := "Ann", assignedTo := "Ben",
    dateTime := 0, description := "He said \"hi\"",
    attachment := none, status := "Open", closedOn := none,
    totalTime := none }

/-! ### Helper lemmas -/

lemma fdiv_pos_iff_ge24 (H : Int) : 0 < Int.fdiv H 24 ↔ 24 ≤ H := by
  rw [Int.fdiv_eq_ediv _ (by norm_num : (0 : Int) ≤ 24)]
  omega

lemma fdiv_hours_neg_iff (d : Int) :
    Int.fdiv d (1000 * 60 * 60) < 0 ↔ d < 0 := by
  rw [Int.fdiv_eq_ediv _ (by norm_num : (0 : Int) ≤ 1000 * 60 * 60)]
  omega

lemma applyStatus_preserves (dto : UpdateIncidentDto) (inc : Incident) :
    (applyStatus dto inc).id = inc.id ∧
    (applyStatus dto inc).dateTime = inc.dateTime ∧
    (applyStatus dto inc).closedOn = inc.closedOn ∧
    (applyStatus dto inc).totalTime = inc.totalTime := by
  unfold applyStatus
  cases dto.status with
  | none => exact ⟨rfl, rfl, rfl, rfl⟩
  | some st =>
    by_cases h : st = ""
    · simp [h]
    · simp [h]

lemma applyStatus_some {dto : UpdateIncidentDto} {st : String}
    (h : dto.status = some st) (hne : st ≠ "") (inc : Incident) :
    (applyStatus dto inc).status = st := by
  simp only [applyStatus, h]
  rw [if_neg hne]

lemma applyClosedOn_none {dto : UpdateIncidentDto} (h : dto.closedOn = none)
    (inc : Incident) : applyClosedOn dto inc = inc := by
  unfold applyClosedOn
  rw [h]

lemma applyClosedOn_id (dto : UpdateIncidentDto) (inc : Incident) :
    (applyClosedOn dto inc).id = inc.id := by
  unfold applyClosedOn
  cases dto.closedOn <;> rfl

lemma applyClosedOn_status (dto : UpdateIncidentDto) (inc : Incident) :
    (applyClosedOn dto inc).status = inc.status := by
  unfold applyClosedOn
  cases dto.closedOn <;> rfl

lemma applyClosedOn_closedOn {dto : UpdateIncidentDto} {t : Int}
    (h : dto.closedOn = some t) (inc : Incident) :
    (applyClosedOn dto inc).closedOn = some t := by
  unfold applyClosedOn
  rw [h]

lemma applyClosedOn_totalTime {dto : UpdateIncidentDto} {t : Int}
    (h : dto.closedOn = some t) (inc : Incident) :
    (applyClosedOn dto inc).totalTime = some
      (if 0 < Int.fdiv (Int.fdiv (t - inc.dateTime) (1000 * 60 * 60)) 24 then
        toString (Int.fdiv (Int.fdiv (t - inc.dateTime) (1000 * 60 * 60)) 24)
          ++ " days"
       else toString (Int.fdiv (t - inc.dateTime) (1000 * 60 * 60)) ++ " hours") := by
  unfold applyClosedOn
  rw [h]

lemma update_found {id : Nat} (dto : UpdateIncidentDto) {s : Store} {inc : Incident}
    (h : s.find? (fun i => i.id = id) = some inc) :
    update id dto s =
      (Except.ok (applyClosedOn dto (applyStatus dto inc)),
       saveExisting (applyClosedOn dto (applyStatus dto inc)) s) := by
  unfold update
  rw [h]

lemma update_not_found {id : Nat} {dto : UpdateIncidentDto} {s : Store}
    (h : s.find? (fun i => i.id = id) = none) :
    update id dto s = (Except.error (ServiceError.notFound id), s) := by
  unfold update
  rw [h]

lemma id_lt_nextId {s : Store} {inc : Incident} (h : inc ∈ s) :
    inc.id < nextId s := by
  have hle : inc.id ≤ (s.map Incident.id).foldr max 0 := by
    induction s with
    | nil => exact absurd h (List.not_mem_nil inc)
    | cons a t ih =>
      simp only [List.map_cons, List.foldr_cons]
      rcases List.mem_cons.mp h with rfl | h'
      · exact Nat.le_max_left _ _
      · exact Nat.le_trans (ih h') (Nat.le_max_right _ _)
  unfold nextId
  omega

lemma mem_id_unique {s : Store} (hnd : (s.map Incident.id).Nodup)
    {x y : Incident} (hx : x ∈ s) (hy : y ∈ s) (h : x.id = y.id) : x = y :=
  List.inj_on_of_nodup_map hnd hx hy h

lemma saveExisting_map_eq {r : Incident} {s : Store} {β : Type}
    (view : Incident → β)
    (h : ∀ x ∈ s, x.id = r.id → view x = view r) :
    (saveExisting r s).map view = s.map view := by
  unfold saveExisting
  rw [List.map_map]
  apply List.map_congr_left
  intro a ha
  simp only [Function.comp_apply]
  by_cases hid : a.id = r.id
  · rw [if_pos hid]
    exact (h a ha hid).symm
  · rw [if_neg hid]

lemma mem_saveExisting {r inc : Incident} {s : Store} (hmem : inc ∈ s)
    (hid : inc.id = r.id) : r ∈ saveExisting r s := by
  have h2 : (if inc.id = r.id then r else inc) ∈ saveExisting r s :=
    List.mem_map_of_mem _ hmem
  rwa [if_pos hid] at h2

/-! ### Claim theorems -/

/-- C1: for every update request that supplies a `closedOn` timestamp on
an existing incident, with `H = floor((closedOn - dateTime) / 1 hour)`,
the persisted `totalTime` is `"<floor(H/24)> days"` when `H ≥ 24` and
`"<H> hours"` otherwise, and `closedOn` is stored as supplied. -/
theorem spec_C1 (id : Nat) (dto : UpdateIncidentDto) (s : Store)
    (inc : Incident) (t : Int)
    (hfind : s.find? (fun i => i.id = id) = some inc)
    (hc : dto.closedOn = some t) :
    ∃ r, (update id dto s).1 = Except.ok r ∧
      r.closedOn = some t ∧
      r.totalTime = some
        (if 24 ≤ Int.fdiv (t - inc.dateTime) (1000 * 60 * 60) then
          toString (Int.fdiv (Int.fdiv (t - inc.dateTime) (1000 * 60 * 60)) 24)
            ++ " days"
         else toString (Int.fdiv (t - inc.dateTime) (1000 * 60 * 60)) ++ " hours") := by
  refine ⟨applyClosedOn dto (applyStatus dto inc), ?_, ?_, ?_⟩
  · rw [update_found dto hfind]
  · exact applyClosedOn_closedOn hc _
  · rw [applyClosedOn_totalTime hc (applyStatus dto inc),
        (applyStatus_preserves dto inc).2.1]
    congr 1
    by_cases h24 : 24 ≤ Int.fdiv (t - inc.dateTime) (1000 * 60 * 60)
    · rw [if_pos ((fdiv_pos_iff_ge24 _).mpr h24), if_pos h24]
    · rw [if_neg (fun hp => h24 ((fdiv_pos_iff_ge24 _).mp hp)), if_neg h24]

/-- Witness for C1 at the spec's two examples: closing 29 hours after
`dateTime` yields `"1 days"`, closing 5 hours after yields `"5 hours"`. -/
theorem spec_C1_witness :
    ([exInc].find? (fun i => i.id = 1) = some exInc) ∧
    (∃ r, (update 1 { status := some "Closed", closedOn := some 1704171600000 }
        [exInc]).1 = Except.ok r ∧
      r.closedOn = some 1704171600000 ∧ r.totalTime = some "1 days") ∧
    (∃ r, (update 1 { status := some "Closed", closedOn := some 1704085200000 }
        [exInc]).1 = Except.ok r ∧
      r.closedOn = some 1704085200000 ∧ r.totalTime = some "5 hours") := by
  refine ⟨rfl, ?_, ?_⟩
  · obtain ⟨r, h1, h2, h3⟩ :=
      spec_C1 1 { status := some "Closed", closedOn := some 1704171600000 }
        [exInc] exInc 1704171600000 rfl rfl
    exact ⟨r, h1, h2, by rw [h3]; decide⟩
  · obtain ⟨r, h1, h2, h3⟩ :=
      spec_C1 1 { status := some "Closed", closedOn := some 1704085200000 }
        [exInc] exInc 1704085200000 rfl rfl
    exact ⟨r, h1, h2, by rw [h3]; decide⟩

/-- C2: an update request that does not supply `closedOn` leaves the
incident's `closedOn` and `totalTime` unchanged, whatever status it
supplies: the returned record keeps both fields, and the persisted
store's id/closedOn/totalTime view is untouched (ids are unique in a
table keyed by a generated primary key). -/
theorem spec_C2 (id : Nat) (dto : UpdateIncidentDto) (s : Store)
    (inc : Incident)
    (hnd : (s.map Incident.id).Nodup)
    (hfind : s.find? (fun i => i.id = id) = some inc)
    (hc : dto.closedOn = none) :
    ∃ r, (update id dto s).1 = Except.ok r ∧
      r.closedOn = inc.closedOn ∧ r.totalTime = inc.totalTime ∧
      ((update id dto s).2).map closureView = s.map closureView := by
  have hup := update_found dto hfind
  have hr : applyClosedOn dto (applyStatus dto inc) = applyStatus dto inc :=
    applyClosedOn_none hc _
  refine ⟨applyStatus dto inc, ?_, (applyStatus_preserves dto inc).2.2.1,
    (applyStatus_preserves dto inc).2.2.2, ?_⟩
  · rw [hup]
    dsimp only
    rw [hr]
  · rw [hup]
    dsimp only
    rw [hr]
    apply saveExisting_map_eq
    intro x hx hid
    have hxinc : x = inc := by
      apply mem_id_unique hnd hx (List.mem_of_find?_eq_some hfind)
      rw [hid, (applyStatus_preserves dto inc).1]
    rw [hxinc]
    unfold closureView
    rw [(applyStatus_preserves dto inc).1, (applyStatus_preserves dto inc).2.2.1,
        (applyStatus_preserves dto inc).2.2.2]

/-- Witness for C2: marking the open incident `Closed` without a
`closedOn` leaves `closedOn`/`totalTime` null in the returned record
and in the store. -/
theorem spec_C2_witness :
    (([exInc].map Incident.id).Nodup) ∧
    ([exInc].find? (fun i => i.id = 1) = some exInc) ∧
    (∃ r, (update 1 { status := some "Closed", closedOn := none } [exInc]).1
        = Except.ok r ∧
      r.closedOn = exInc.closedOn ∧ r.totalTime = exInc.totalTime ∧
      ((update 1 { status := some "Closed", closedOn := none } [exInc]).2).map
          closureView = [exInc].map closureView) :=
  ⟨by decide, rfl, spec_C2 1 _ [exInc] exInc (by decide) rfl rfl⟩

/-- C3 as stated fails: supplying the status value `""` — a string, but
falsy in JavaScript — does not replace the stored status; the update
returns the incident with its old status `"Open"`. -/
theorem spec_C3_counterexample :
    (update 1 { status := some "", closedOn := none } [exInc]).1
      = Except.ok exInc ∧
    exInc.status = "Open" ∧ exInc.status ≠ "" := by
  refine ⟨rfl, rfl, by decide⟩

/-- C3 amended: for every existing incident and every update request
that supplies a non-empty status string, the persisted status equals
the supplied value, with no restriction on the old/new pair; a supplied
empty string is treated as an absent status and leaves the old status
in place. -/
theorem spec_C3 (id : Nat) (dto : UpdateIncidentDto) (s : Store)
    (inc : Incident) (st : String)
    (hfind : s.find? (fun i => i.id = id) = some inc)
    (hst : dto.status = some st) (hne : st ≠ "") :
    ∃ r, (update id dto s).1 = Except.ok r ∧ r.status = st ∧
      r ∈ (update id dto s).2 := by
  have hup := update_found dto hfind
  refine ⟨applyClosedOn dto (applyStatus dto inc), ?_, ?_, ?_⟩
  · rw [hup]
  · rw [applyClosedOn_status, applyStatus_some hst hne]
  · rw [hup]
    dsimp only
    exact mem_saveExisting (List.mem_of_find?_eq_some hfind)
      (by rw [applyClosedOn_id, (applyStatus_preserves dto inc).1])

/-- Witness for C3 (amended): the transition `Open` to `In Progress`
goes through and is persisted. -/
theorem spec_C3_witness :
    ([exInc].find? (fun i => i.id = 1) = some exInc) ∧
    (("In Progress" : String) ≠ "") ∧
    (∃ r, (update 1 { status := some "In Progress", closedOn := none } [exInc]).1
        = Except.ok r ∧ r.status = "In Progress" ∧
      r ∈ (update 1 { status := some "In Progress", closedOn := none } [exInc]).2) :=
  ⟨rfl, by decide, spec_C3 1 _ [exInc] exInc "In Progress" rfl rfl (by decide)⟩

/-- C4: when no stored record carries the requested id, `update` fails
with `NotFound` and `remove` fails with `NotFound`. -/
theorem spec_C4 (id : Nat) (dto : UpdateIncidentDto) (s : Store)
    (habs : ∀ x ∈ s, x.id ≠ id) :
    (update id dto s).1 = Except.error (ServiceError.notFound id) ∧
    (remove id s).1 = Except.error (ServiceError.notFound id) := by
  constructor
  · have hnone : s.find? (fun i => i.id = id) = none :=
      List.find?_eq_none.mpr (fun x hx => by simpa using habs x hx)
    rw [update_not_found hnone]
  · have hfil : s.filter (fun inc => inc.id ≠ id) = s :=
      List.filter_eq_self.mpr (fun x hx => by simpa using habs x hx)
    simp only [remove, hfil, Nat.sub_self]
    rfl

/-- Witness for C4 at id 2 against a store holding only id 1. -/
theorem spec_C4_witness :
    (∀ x ∈ [exInc], x.id ≠ 2) ∧
    (update 2 { status := none, closedOn := none } [exInc]).1
      = Except.error (ServiceError.notFound 2) ∧
    (remove 2 [exInc]).1 = Except.error (ServiceError.notFound 2) :=
  ⟨by decide, spec_C4 2 { status := none, closedOn := none } [exInc] (by decide)⟩

/-- C5: an operation that ends in an error leaves the store unchanged —
`update` and `remove` are the only operations with an error path, and
on error each returns the store as it was; `create` always succeeds
(`findAll` and `exportToCSV` read the store and have no effect on it by
construction). -/
theorem spec_C5 :
    (∀ (id : Nat) (dto : UpdateIncidentDto) (s : Store) (e : ServiceError),
      (update id dto s).1 = Except.error e → (update id dto s).2 = s) ∧
    (∀ (id : Nat) (s : Store) (e : ServiceError),
      (remove id s).1 = Except.error e → (remove id s).2 = s) ∧
    (∀ (dto : CreateIncidentDto) (s : Store),
      ∃ r, (create dto s).1 = Except.ok r) := by
  refine ⟨?_, ?_, ?_⟩
  · intro id dto s e h
    cases hf : s.find? (fun i => i.id = id) with
    | none => rw [update_not_found hf]
    | some inc =>
      rw [update_found dto hf] at h
      simp at h
  · intro id s e h
    simp only [remove] at h ⊢
    by_cases h0 : s.length - (s.filter (fun inc => inc.id ≠ id)).length = 0
    · rw [if_pos h0]
      have hle := List.length_filter_le (fun inc => decide (inc.id ≠ id)) s
      exact (List.filter_sublist s).eq_of_length (by omega)
    · rw [if_neg h0] at h
      simp at h
  · intro dto s
    exact ⟨_, rfl⟩

/-- Witness for C5: failing `update` and `remove` against the empty
store leave it empty; `create` succeeds on it. -/
theorem spec_C5_witness :
    ((update 1 { status := none, closedOn := none } ([] : Store)).1
       = Except.error (ServiceError.notFound 1)) ∧
    ((update 1 { status := none, closedOn := none } ([] : Store)).2 = []) ∧
    ((remove 1 ([] : Store)).1 = Except.error (ServiceError.notFound 1)) ∧
    ((remove 1 ([] : Store)).2 = []) ∧
    (∃ r, (create exDto ([] : Store)).1 = Except.ok r) := by
  refine ⟨rfl, ?_, rfl, ?_, ?_⟩
  · exact spec_C5.1 1 { status := none, closedOn := none } [] (ServiceError.notFound 1) rfl
  · exact spec_C5.2.1 1 [] (ServiceError.notFound 1) rfl
  · exact spec_C5.2.2 exDto []

/-- C6: for every valid creation input (non-empty `reportedBy`,
`assignedTo`, `description`; `dateTime` is always a timestamp here),
the returned record carries the supplied fields, has
`status = "Open"`, null `closedOn` and `totalTime`, and a freshly
assigned id distinct from every existing record's id. -/
theorem spec_C6 (dto : CreateIncidentDto) (s : Store)
    (h1 : dto.reportedBy ≠ "") (h2 : dto.assignedTo ≠ "")
    (h3 : dto.description ≠ "") :
    ∃ r, (create dto s).1 = Except.ok r ∧
      r.status = "Open" ∧ r.closedOn = none ∧ r.totalTime = none ∧
      r.reportedBy = dto.reportedBy ∧ r.assignedTo = dto.assignedTo ∧
      r.dateTime = dto.dateTime ∧ r.description = dto.description ∧
      ∀ x ∈ s, x.id ≠ r.id := by
  refine ⟨_, rfl, rfl, rfl, rfl, rfl, rfl, rfl, rfl, ?_⟩
  intro x hx
  exact Nat.ne_of_lt (id_lt_nextId hx)

/-- Witness for C6: creating over a store holding id 1 returns an open
record with a fresh id. -/
theorem spec_C6_witness :
    (exDto.reportedBy ≠ "") ∧ (exDto.assignedTo ≠ "") ∧
    (exDto.description ≠ "") ∧
    (∃ r, (create exDto [exInc]).1 = Except.ok r ∧
      r.status = "Open" ∧ r.closedOn = none ∧ r.totalTime = none ∧
      r.reportedBy = exDto.reportedBy ∧ r.assignedTo = exDto.assignedTo ∧
      r.dateTime = exDto.dateTime ∧ r.description = exDto.description ∧
      ∀ x ∈ [exInc], x.id ≠ r.id) :=
  ⟨by decide, by decide, by decide,
   spec_C6 exDto [exInc] (by decide) (by decide) (by decide)⟩

/-- C7: the CSV export of the empty store is exactly the header row;
over any store it is the header line followed by one data row per
record, joined by newlines, each data row the comma-join of the 8
double-quoted fields in the fixed order id, reportedBy, assignedTo,
dateTime, description, status, closedOn, totalTime, with `closedOn` and
`totalTime` rendered as the empty string when null. -/
theorem spec_C7 (fmt : Int → String) (s : Store) :
    csvHeaderLine
      = "ID,Reported By,Assigned To,Date & Time,Description,Status,Closed On,Total Time" ∧
    (s = [] → exportToCSV fmt s = csvHeaderLine) ∧
    ∃ rows : List String,
      exportToCSV fmt s = String.intercalate "\n" (csvHeaderLine :: rows) ∧
      rows.length = s.length ∧
      ∀ r ∈ rows, ∃ inc, inc ∈ s ∧
        r = String.intercalate "," ((incidentRow fmt inc).map csvCell) ∧
        (incidentRow fmt inc).length = 8 ∧
        incidentRow fmt inc
          = [toString inc.id, inc.reportedBy, inc.assignedTo, fmt inc.dateTime,
             inc.description, inc.status,
             (match inc.closedOn with | some t => fmt t | none => ""),
             (match inc.totalTime with | some tt => tt | none => "")] ∧
        (inc.closedOn = none → (incidentRow fmt inc).get? 6 = some "") ∧
        (inc.totalTime = none → (incidentRow fmt inc).get? 7 = some "") := by
  refine ⟨rfl, ?_, (findAll s).map (csvRowLine fmt), rfl, ?_, ?_⟩
  · rintro rfl
    unfold exportToCSV findAll
    rw [List.mergeSort_nil]
    rfl
  · rw [List.length_map]
    unfold findAll
    rw [List.length_mergeSort]
  · intro r hr
    obtain ⟨inc, hinc, rfl⟩ := List.mem_map.mp hr
    have hmem : inc ∈ s := by
      unfold findAll at hinc
      exact List.mem_mergeSort.mp hinc
    refine ⟨inc, hmem, rfl, rfl, rfl, ?_, ?_⟩
    · intro h
      unfold incidentRow
      rw [h]
      rfl
    · intro h
      unfold incidentRow
      rw [h]
      rfl

/-- Witness for C7: exporting the empty store gives the bare header;
exporting one record gives the header plus one row. -/
theorem spec_C7_witness :
    (exportToCSV (fun t => toString t) [] = csvHeaderLine) ∧
    ∃ rows : List String,
      exportToCSV (fun t => toString t) [exInc]
        = String.intercalate "\n" (csvHeaderLine :: rows) ∧
      rows.length = 1 := by
  obtain ⟨h1, h2, rows, he, hlen, hall⟩ := spec_C7 (fun t => toString t) [exInc]
  exact ⟨(spec_C7 (fun t => toString t) ([] : Store)).2.1 rfl, rows, he, hlen⟩

/-- C8: a data cell is the rendered value wrapped in one leading and
one trailing double quote, whatever the value contains, with no
escaping — a value embedding a double quote reaches the output with
that quote unescaped, as the concrete export shows. -/
theorem spec_C8 :
    (∀ v : String, csvCell v = "\"" ++ v ++ "\"") ∧
    csvCell "He said \"hi\"" = "\"He said \"hi\"\"" ∧
    exportToCSV (fun t => toString t) [quoteInc]
      = "ID,Reported By,Assigned To,Date & Time,Description,Status,Closed On,Total Time\n\"7\",\"Ann\",\"Ben\",\"0\",\"He said \"hi\"\",\"Open\",\"\",\"\"" := by
  refine ⟨fun v => rfl, rfl, ?_⟩
  unfold exportToCSV findAll
  rw [List.mergeSort_singleton]
  decide

/-- C9: the header row joins the 8 column names with commas and no
quoting — it contains no double-quote character — while every data
cell is double-quoted; the export output is the header line followed
by the quoted data rows. -/
theorem spec_C9 :
    csvHeaderLine
      = "ID,Reported By,Assigned To,Date & Time,Description,Status,Closed On,Total Time" ∧
    (Char.ofNat 34) ∉ csvHeaderLine.data ∧
    (∀ v : String, csvCell v = "\"" ++ v ++ "\"") ∧
    (∀ (fmt : Int → String) (s : Store),
      exportToCSV fmt s
        = String.intercalate "\n" (csvHeaderLine :: (findAll s).map (csvRowLine fmt))) :=
  ⟨rfl, by decide, fun v => rfl, fun fmt s => rfl⟩

/-- C10: an update that supplies a `closedOn` strictly earlier than the
incident's `dateTime` still succeeds, and stores the hours rendering of
the negative hour count `H = floor((closedOn - dateTime) / 1 hour) < 0`;
the days branch is never taken for a negative duration. -/
theorem spec_C10 (id : Nat) (dto : UpdateIncidentDto) (s : Store)
    (inc : Incident) (t : Int)
    (hfind : s.find? (fun i => i.id = id) = some inc)
    (hc : dto.closedOn = some t) (hlt : t < inc.dateTime) :
    ∃ r, (update id dto s).1 = Except.ok r ∧
      Int.fdiv (t - inc.dateTime) (1000 * 60 * 60) < 0 ∧
      r.totalTime = some
        (toString (Int.fdiv (t - inc.dateTime) (1000 * 60 * 60)) ++ " hours") := by
  have hneg : Int.fdiv (t - inc.dateTime) (1000 * 60 * 60) < 0 :=
    (fdiv_hours_neg_iff _).mpr (by omega)
  refine ⟨applyClosedOn dto (applyStatus dto inc), ?_, hneg, ?_⟩
  · rw [update_found dto hfind]
  · rw [applyClosedOn_totalTime hc (applyStatus dto inc),
        (applyStatus_preserves dto inc).2.1]
    rw [if_neg (fun hp => absurd ((fdiv_pos_iff_ge24 _).mp hp) (by omega))]

/-- Witness for C10: closing 2 hours before `dateTime` succeeds and
stores `"-2 hours"`. -/
theorem spec_C10_witness :
    ([exInc].find? (fun i => i.id = 1) = some exInc) ∧
    ((1704060000000 : Int) < exInc.dateTime) ∧
    (∃ r, (update 1 { status := some "Closed", closedOn := some 1704060000000 }
        [exInc]).1 = Except.ok r ∧
      Int.fdiv ((1704060000000 : Int) - exInc.dateTime) (1000 * 60 * 60) < 0 ∧
      r.totalTime = some "-2 hours") := by
  refine ⟨rfl, by decide, ?_⟩
  obtain ⟨r, h1, h2, h3⟩ :=
    spec_C10 1 { status := some "Closed", closedOn := some 1704060000000 }
      [exInc] exInc 1704060000000 rfl rfl (by decide)
  exact ⟨r, h1, h2, by rw [h3]; decide⟩

end IncidentSystem
